import Mathlib

/-!
Verification of the inventory ledger core of the TurtleEcommerce backend.

The quantity ledger is `perform_inventory_adjustment` in
`backend/inventory/services.py`; the data model is in
`backend/inventory/models.py` (`Inventory`, `InventoryAdjustment`,
`AdjustmentType`, `Lot`, `LotStatus`, `SerializedInventory`), and the
queryset annotation for `available_to_promise` is in
`backend/inventory/views.py` (`InventoryViewSet.get_queryset`).

The lot and serialized sub-ledger service functions
(`add_quantity_to_lot`, `consume_quantity_from_lot`,
`find_lots_for_consumption`, `reserve_lot_quantity`,
`release_lot_reservation`, `receive_serialized_item`, ...) are imported by
`views.py` and by the test suite but are absent from the source tree, so
they are modelled from the specification; their doc comments say so
explicitly.

Conventions of the embedding: Django integer columns become `Int`;
raising `ValidationError` inside `transaction.atomic` becomes
`Except.error` (the transaction rolls back, so an error leaves the
persisted state untouched, which the `run_*` wrappers make explicit);
the string-valued `AdjustmentType` text choices stay strings, exactly as
the source dispatches on them.
-/

namespace TurtleInventory

/-- One row of the `Inventory` model (`models.py`, class `Inventory`):
the eight bucket counters, each a `PositiveIntegerField` in Django,
modelled as integers so that non-negativity is a provable invariant
rather than an assumption. -/
structure Inventory where
  stock_quantity : Int
  reserved_quantity : Int
  non_saleable_quantity : Int
  on_order_quantity : Int
  in_transit_quantity : Int
  returned_quantity : Int
  hold_quantity : Int
  backorder_quantity : Int
deriving Repr, DecidableEq

-- The string values of the `AdjustmentType` text choices
-- (`models.py` lines 140-153).
namespace AdjustmentType

def ADDITION : String := "ADD"

def SUBTRACTION : String := "SUB"

def RESERVATION : String := "RES"

def RELEASE_RESERVATION : String := "REL_RES"

def NON_SALEABLE : String := "NON_SALE"

def RECEIVE_ORDER : String := "RECV_PO"

def SHIP_ORDER : String := "SHIP_ORD"

def RETURN_TO_STOCK : String := "RET_STOCK"

def MOVE_TO_NON_SALEABLE : String := "RET_NON_SALE"

def HOLD : String := "HOLD"

def RELEASE_HOLD : String := "REL_HOLD"

def CYCLE_COUNT : String := "CYCLE"

def INITIAL_STOCK : String := "INIT"

end AdjustmentType

/-- One `InventoryAdjustment` journal row (`models.py`, class
`InventoryAdjustment`), restricted to the fields the ledger computes;
the audit-only foreign keys (user, reason) and the timestamp are
omitted. -/
structure InventoryAdjustment where
  adjustment_type : String
  quantity_change : Int
  new_stock_quantity : Int
deriving Repr, DecidableEq

/-- The validate-and-mutate cascade of `perform_inventory_adjustment`
(`services.py` lines 27-79), translated branch by branch; every check
precedes its mutation exactly as in the source, `raise ValidationError`
becomes `Except.error` with the source's message, and an
`adjustment_type` that matches none of the seven handled branches falls
through leaving the record unchanged, as the source's if/elif chain
does. -/
def adjust_buckets (inventory : Inventory) (adjustment_type : String)
    (quantity_change : Int) : Except String Inventory :=
  if adjustment_type = AdjustmentType.ADDITION then
    if quantity_change ≤ 0 then
      Except.error "Quantity must be positive for additions."
    else
      Except.ok { inventory with
        stock_quantity := inventory.stock_quantity + quantity_change }
  else if adjustment_type = AdjustmentType.SUBTRACTION then
    if 0 ≤ quantity_change then
      Except.error "Quantity must be negative for subtractions."
    else if inventory.stock_quantity < (quantity_change.natAbs : Int) then
      Except.error "Insufficient stock for subtraction."
    else
      Except.ok { inventory with
        stock_quantity := inventory.stock_quantity + quantity_change }
  else if adjustment_type = AdjustmentType.RESERVATION then
    if quantity_change ≤ 0 then
      Except.error "Quantity must be positive for reservations."
    else if inventory.stock_quantity - inventory.reserved_quantity < quantity_change then
      Except.error "Insufficient available stock for reservation."
    else
      Except.ok { inventory with
        reserved_quantity := inventory.reserved_quantity + quantity_change }
  else if adjustment_type = AdjustmentType.RELEASE_RESERVATION then
    if 0 ≤ quantity_change then
      Except.error "Quantity must be negative for releasing reservations."
    else if inventory.reserved_quantity < (quantity_change.natAbs : Int) then
      Except.error "Cannot release more than reserved quantity."
    else
      Except.ok { inventory with
        reserved_quantity := inventory.reserved_quantity + quantity_change }
  else if adjustment_type = AdjustmentType.NON_SALEABLE then
    if quantity_change ≤ 0 then
      Except.error "Quantity must be positive for non-saleable adjustments."
    else if inventory.stock_quantity < quantity_change then
      Except.error "Insufficient stock to mark as non-saleable."
    else
      Except.ok { inventory with
        stock_quantity := inventory.stock_quantity - quantity_change,
        non_saleable_quantity := inventory.non_saleable_quantity + quantity_change }
  else if adjustment_type = AdjustmentType.HOLD then
    if quantity_change ≤ 0 then
      Except.error "Quantity must be positive for hold."
    else if inventory.stock_quantity < quantity_change then
      Except.error "Insufficient stock to place on hold."
    else
      Except.ok { inventory with
        stock_quantity := inventory.stock_quantity - quantity_change,
        hold_quantity := inventory.hold_quantity + quantity_change }
  else if adjustment_type = AdjustmentType.RELEASE_HOLD then
    if 0 ≤ quantity_change then
      Except.error "Quantity must be negative for releasing hold."
    else if inventory.hold_quantity < (quantity_change.natAbs : Int) then
      Except.error "Cannot release more than held quantity."
    else
      Except.ok { inventory with
        hold_quantity := inventory.hold_quantity + quantity_change,
        stock_quantity := inventory.stock_quantity - quantity_change }
  else
    Except.ok inventory

/-- `perform_inventory_adjustment` (`services.py` lines 23-92): run the
bucket cascade, then create the `InventoryAdjustment` row carrying the
supplied type and quantity and the post-mutation `stock_quantity`. -/
def perform_inventory_adjustment (inventory : Inventory)
    (adjustment_type : String) (quantity_change : Int) :
    Except String (Inventory × InventoryAdjustment) :=
  match adjust_buckets inventory adjustment_type quantity_change with
  | Except.error e => Except.error e
  | Except.ok inv =>
      Except.ok (inv,
        { adjustment_type := adjustment_type
          quantity_change := quantity_change
          new_stock_quantity := inv.stock_quantity })

/-- The persisted outcome of one call: the whole body runs inside
`transaction.atomic()`, so a raised `ValidationError` rolls everything
back — the record keeps its old buckets and no journal row is
appended. -/
def run_adjustment (inventory : Inventory) (adjustment_type : String)
    (quantity_change : Int) : Inventory × Option InventoryAdjustment :=
  match perform_inventory_adjustment inventory adjustment_type quantity_change with
  | Except.ok (inv, adj) => (inv, some adj)
  | Except.error _ => (inventory, none)

/-- Persisted inventory state after a sequence of adjustment calls. -/
def run_sequence (inventory : Inventory) : List (String × Int) → Inventory
  | [] => inventory
  | (t, q) :: ops => run_sequence (run_adjustment inventory t q).1 ops

/-- Every bucket of the record is non-negative. -/
def nonneg (inv : Inventory) : Prop :=
  0 ≤ inv.stock_quantity ∧ 0 ≤ inv.reserved_quantity ∧
  0 ≤ inv.non_saleable_quantity ∧ 0 ≤ inv.on_order_quantity ∧
  0 ≤ inv.in_transit_quantity ∧ 0 ≤ inv.returned_quantity ∧
  0 ≤ inv.hold_quantity ∧ 0 ≤ inv.backorder_quantity

instance (inv : Inventory) : Decidable (nonneg inv) := by
  unfold nonneg
  infer_instance

set_option maxHeartbeats 2000000 in
theorem adjust_buckets_nonneg {inv inv' : Inventory} {t : String} {q : Int}
    (h : nonneg inv) (h2 : adjust_buckets inv t q = Except.ok inv') :
    nonneg inv' := by
  unfold adjust_buckets at h2
  unfold nonneg at h ⊢
  obtain ⟨h1, h3, h4, h5, h6, h7, h8, h9⟩ := h
  split_ifs at h2 <;>
    simp only [Except.ok.injEq, reduceCtorEq] at h2 <;>
    subst h2 <;>
    refine ⟨?_, ?_, ?_, ?_, ?_, ?_, ?_, ?_⟩ <;>
    dsimp only <;>
    omega

theorem run_adjustment_nonneg {inv : Inventory} (t : String) (q : Int)
    (h : nonneg inv) : nonneg (run_adjustment inv t q).1 := by
  unfold run_adjustment perform_inventory_adjustment
  cases h2 : adjust_buckets inv t q with
  | error e => simpa using h
  | ok inv2 => simpa using adjust_buckets_nonneg h h2

/-- A record holding 20 in stock and nothing anywhere else. -/
def invStock20 : Inventory := ⟨20, 0, 0, 0, 0, 0, 0, 0⟩

/-- A record holding 100 in stock and nothing anywhere else (the setup of
`test_remove_adjustment` in `tests/test_services.py`). -/
def invStock100 : Inventory := ⟨100, 0, 0, 0, 0, 0, 0, 0⟩

/-- A record holding 5 in stock and nothing anywhere else (the setup of
`test_remove_adjustment_insufficient_stock`). -/
def invStock5 : Inventory := ⟨5, 0, 0, 0, 0, 0, 0, 0⟩

/-- A record with stock 90 and non-saleable 10 (the setup of
`test_mark_saleable_adjustment`). -/
def invStock90NonSaleable10 : Inventory := ⟨90, 0, 10, 0, 0, 0, 0, 0⟩

/-- A record whose reserved bucket exceeds its stock bucket. -/
def invReserved5 : Inventory := ⟨0, 5, 0, 0, 0, 0, 0, 0⟩

/-- C2: starting from an InventoryRecord whose eight buckets are all
non-negative, every bucket remains non-negative after every
`perform_inventory_adjustment` call of any sequence. A call that raises
rolls back and leaves the buckets unchanged, so the property holds for
all sequences and in particular for the error-free ones the claim
quantifies over; applying the theorem to each prefix of a sequence gives
non-negativity after every intermediate call. -/
theorem run_sequence_preserves_nonneg (inv : Inventory)
    (ops : List (String × Int)) (h : nonneg inv) :
    nonneg (run_sequence inv ops) := by
  induction ops generalizing inv with
  | nil => exact h
  | cons op ops ih =>
      obtain ⟨t, q⟩ := op
      exact ih _ (run_adjustment_nonneg t q h)

/-- Witness for C2 at a concrete record and sequence of calls. -/
theorem run_sequence_preserves_nonneg_witness :
    nonneg invStock20 ∧
    nonneg (run_sequence invStock20
      [(AdjustmentType.ADDITION, 5), (AdjustmentType.RESERVATION, 8),
       (AdjustmentType.SUBTRACTION, -3), (AdjustmentType.HOLD, 2)]) :=
  ⟨by decide, run_sequence_preserves_nonneg invStock20 _ (by decide)⟩

/-- The precondition-violation conditions of the seven handled branches
of `perform_inventory_adjustment`, read off the source's checks: a
quantity with the wrong sign for the adjustment type, or an affected
bucket that would go negative. -/
def fails_validation (inv : Inventory) (t : String) (q : Int) : Prop :=
  (t = AdjustmentType.ADDITION ∧ q ≤ 0) ∨
  (t = AdjustmentType.SUBTRACTION ∧
    (0 ≤ q ∨ inv.stock_quantity < (q.natAbs : Int))) ∨
  (t = AdjustmentType.RESERVATION ∧
    (q ≤ 0 ∨ inv.stock_quantity - inv.reserved_quantity < q)) ∨
  (t = AdjustmentType.RELEASE_RESERVATION ∧
    (0 ≤ q ∨ inv.reserved_quantity < (q.natAbs : Int))) ∨
  (t = AdjustmentType.NON_SALEABLE ∧ (q ≤ 0 ∨ inv.stock_quantity < q)) ∨
  (t = AdjustmentType.HOLD ∧ (q ≤ 0 ∨ inv.stock_quantity < q)) ∨
  (t = AdjustmentType.RELEASE_HOLD ∧
    (0 ≤ q ∨ inv.hold_quantity < (q.natAbs : Int)))

instance (inv : Inventory) (t : String) (q : Int) :
    Decidable (fails_validation inv t q) := by
  unfold fails_validation
  infer_instance

theorem adjust_buckets_error_of_fails {inv : Inventory} {t : String} {q : Int}
    (h : fails_validation inv t q) :
    ∃ e, adjust_buckets inv t q = Except.error e := by
  unfold fails_validation at h
  unfold adjust_buckets
  rcases h with ⟨rfl, hq⟩ | ⟨rfl, hq | hq⟩ | ⟨rfl, hq | hq⟩ | ⟨rfl, hq | hq⟩ |
    ⟨rfl, hq | hq⟩ | ⟨rfl, hq | hq⟩ | ⟨rfl, hq | hq⟩
  · rw [if_pos rfl, if_pos hq]
    exact ⟨_, rfl⟩
  · rw [if_neg (by decide), if_pos rfl, if_pos hq]
    exact ⟨_, rfl⟩
  · by_cases h0 : 0 ≤ q
    · rw [if_neg (by decide), if_pos rfl, if_pos h0]
      exact ⟨_, rfl⟩
    · rw [if_neg (by decide), if_pos rfl, if_neg h0, if_pos hq]
      exact ⟨_, rfl⟩
  · rw [if_neg (by decide), if_neg (by decide), if_pos rfl, if_pos hq]
    exact ⟨_, rfl⟩
  · by_cases h0 : q ≤ 0
    · rw [if_neg (by decide), if_neg (by decide), if_pos rfl, if_pos h0]
      exact ⟨_, rfl⟩
    · rw [if_neg (by decide), if_neg (by decide), if_pos rfl, if_neg h0, if_pos hq]
      exact ⟨_, rfl⟩
  · rw [if_neg (by decide), if_neg (by decide), if_neg (by decide), if_pos rfl,
      if_pos hq]
    exact ⟨_, rfl⟩
  · by_cases h0 : 0 ≤ q
    · rw [if_neg (by decide), if_neg (by decide), if_neg (by decide), if_pos rfl,
        if_pos h0]
      exact ⟨_, rfl⟩
    · rw [if_neg (by decide), if_neg (by decide), if_neg (by decide), if_pos rfl,
        if_neg h0, if_pos hq]
      exact ⟨_, rfl⟩
  · rw [if_neg (by decide), if_neg (by decide), if_neg (by decide),
      if_neg (by decide), if_pos rfl, if_pos hq]
    exact ⟨_, rfl⟩
  · by_cases h0 : q ≤ 0
    · rw [if_neg (by decide), if_neg (by decide), if_neg (by decide),
        if_neg (by decide), if_pos rfl, if_pos h0]
      exact ⟨_, rfl⟩
    · rw [if_neg (by decide), if_neg (by decide), if_neg (by decide),
        if_neg (by decide), if_pos rfl, if_neg h0, if_pos hq]
      exact ⟨_, rfl⟩
  · rw [if_neg (by decide), if_neg (by decide), if_neg (by decide),
      if_neg (by decide), if_neg (by decide), if_pos rfl, if_pos hq]
    exact ⟨_, rfl⟩
  · by_cases h0 : q ≤ 0
    · rw [if_neg (by decide), if_neg (by decide), if_neg (by decide),
        if_neg (by decide), if_neg (by decide), if_pos rfl, if_pos h0]
      exact ⟨_, rfl⟩
    · rw [if_neg (by decide), if_neg (by decide), if_neg (by decide),
        if_neg (by decide), if_neg (by decide), if_pos rfl, if_neg h0, if_pos hq]
      exact ⟨_, rfl⟩
  · rw [if_neg (by decide), if_neg (by decide), if_neg (by decide),
      if_neg (by decide), if_neg (by decide), if_neg (by decide), if_pos rfl,
      if_pos hq]
    exact ⟨_, rfl⟩
  · by_cases h0 : 0 ≤ q
    · rw [if_neg (by decide), if_neg (by decide), if_neg (by decide),
        if_neg (by decide), if_neg (by decide), if_neg (by decide), if_pos rfl,
        if_pos h0]
      exact ⟨_, rfl⟩
    · rw [if_neg (by decide), if_neg (by decide), if_neg (by decide),
        if_neg (by decide), if_neg (by decide), if_neg (by decide), if_pos rfl,
        if_neg h0, if_pos hq]
      exact ⟨_, rfl⟩

/-- C3: whenever a `perform_inventory_adjustment` call fails precondition
validation (a quantity with the wrong sign for the adjustment type, or
an affected bucket that would go negative), the call raises a
`ValidationError` — the code's `PreconditionViolation` class — and the
persisted state is byte-for-byte unchanged: the record keeps all its
buckets and no `InventoryAdjustment` row is appended, because the raise
aborts the enclosing `transaction.atomic()` block. -/
theorem failed_validation_rejects_without_mutation (inv : Inventory)
    (t : String) (q : Int) (h : fails_validation inv t q) :
    (∃ e, perform_inventory_adjustment inv t q = Except.error e) ∧
    run_adjustment inv t q = (inv, none) := by
  obtain ⟨e, he⟩ := adjust_buckets_error_of_fails h
  constructor
  · exact ⟨e, by simp [perform_inventory_adjustment, he]⟩
  · simp [run_adjustment, perform_inventory_adjustment, he]

/-- Witness for C3: `applyAdjustment(SUBTRACTION, qty=10)` on a record
with stock 5 fails validation, raises, and leaves stock at 5 with no
journal row. -/
theorem failed_validation_rejects_without_mutation_witness :
    fails_validation invStock5 AdjustmentType.SUBTRACTION 10 ∧
    ((∃ e, perform_inventory_adjustment invStock5 AdjustmentType.SUBTRACTION 10 =
        Except.error e) ∧
      run_adjustment invStock5 AdjustmentType.SUBTRACTION 10 = (invStock5, none)) :=
  ⟨by decide,
    failed_validation_rejects_without_mutation invStock5 AdjustmentType.SUBTRACTION 10
      (by decide)⟩

/-- C1 (code evidence): the round trip the claim describes diverges from
the code. From stock=20, reserved=0, `RESERVATION` of 8 leaves stock at
20 (the branch only increments `reserved_quantity`, it never decrements
`stock_quantity`), `RELEASE_RESERVATION` of a positive 5 raises
("Quantity must be negative for releasing reservations."), and even the
code's own negative-quantity release leaves stock at 20, never 12 or
17. -/
theorem reservation_roundtrip_code_divergence :
    (run_adjustment invStock20 AdjustmentType.RESERVATION 8).1.stock_quantity = 20 ∧
    (run_adjustment invStock20 AdjustmentType.RESERVATION 8).1.reserved_quantity = 8 ∧
    perform_inventory_adjustment (run_adjustment invStock20 AdjustmentType.RESERVATION 8).1
        AdjustmentType.RELEASE_RESERVATION 5 =
      Except.error "Quantity must be negative for releasing reservations." ∧
    (run_adjustment (run_adjustment invStock20 AdjustmentType.RESERVATION 8).1
        AdjustmentType.RELEASE_RESERVATION (-5)).1.stock_quantity = 20 :=
  ⟨rfl, rfl, rfl, rfl⟩

/-- C5 (code evidence): `SUBTRACTION` with the positive magnitude 10 on
a record with stock 100 — the exact call of `test_remove_adjustment`,
which expects success and stock 90 — raises "Quantity must be negative
for subtractions." and changes nothing. -/
theorem subtraction_positive_magnitude_rejected :
    perform_inventory_adjustment invStock100 AdjustmentType.SUBTRACTION 10 =
      Except.error "Quantity must be negative for subtractions." ∧
    (run_adjustment invStock100 AdjustmentType.SUBTRACTION 10).1 = invStock100 :=
  ⟨rfl, rfl⟩

/-- C6 (code evidence): `RETURN_TO_STOCK` matches no branch of the
if/elif chain, so on a record with stock 90 and non-saleable 10 — the
setup of `test_mark_saleable_adjustment`, which expects stock 95 and
non-saleable 5 — the call silently changes no bucket and still appends a
journal row recording the unchanged stock. -/
theorem return_to_stock_unhandled :
    (run_adjustment invStock90NonSaleable10 AdjustmentType.RETURN_TO_STOCK 5).1 =
      invStock90NonSaleable10 ∧
    (run_adjustment invStock90NonSaleable10 AdjustmentType.RETURN_TO_STOCK 5).2 =
      some { adjustment_type := AdjustmentType.RETURN_TO_STOCK,
             quantity_change := 5, new_stock_quantity := 90 } :=
  ⟨rfl, rfl⟩

/-- C7: for every adjustment type that matches none of the seven handled
branches — the declared `RETURN_TO_STOCK`, `RECEIVE_ORDER`, `SHIP_ORDER`,
`MOVE_TO_NON_SALEABLE`, `CYCLE_COUNT`, `INITIAL_STOCK`, and any arbitrary
string — and every quantity, `perform_inventory_adjustment` raises no
error, modifies no bucket, and still creates and returns an
`InventoryAdjustment` carrying the supplied quantity with
`new_stock_quantity` equal to the unchanged stock. -/
theorem unhandled_adjustment_type_falls_through (inv : Inventory) (t : String)
    (q : Int)
    (h1 : t ≠ AdjustmentType.ADDITION) (h2 : t ≠ AdjustmentType.SUBTRACTION)
    (h3 : t ≠ AdjustmentType.RESERVATION)
    (h4 : t ≠ AdjustmentType.RELEASE_RESERVATION)
    (h5 : t ≠ AdjustmentType.NON_SALEABLE) (h6 : t ≠ AdjustmentType.HOLD)
    (h7 : t ≠ AdjustmentType.RELEASE_HOLD) :
    perform_inventory_adjustment inv t q =
      Except.ok (inv,
        { adjustment_type := t, quantity_change := q,
          new_stock_quantity := inv.stock_quantity }) := by
  unfold perform_inventory_adjustment adjust_buckets
  rw [if_neg h1, if_neg h2, if_neg h3, if_neg h4, if_neg h5, if_neg h6, if_neg h7]

/-- Witness for C7 at the declared but unhandled type `RETURN_TO_STOCK`. -/
theorem unhandled_adjustment_type_falls_through_witness :
    perform_inventory_adjustment invStock90NonSaleable10
        AdjustmentType.RETURN_TO_STOCK 7 =
      Except.ok (invStock90NonSaleable10,
        { adjustment_type := AdjustmentType.RETURN_TO_STOCK,
          quantity_change := 7,
          new_stock_quantity := invStock90NonSaleable10.stock_quantity }) :=
  unhandled_adjustment_type_falls_through invStock90NonSaleable10
    AdjustmentType.RETURN_TO_STOCK 7 (by decide) (by decide) (by decide)
    (by decide) (by decide) (by decide) (by decide)

/-- The `available_to_promise` property of the `Inventory` model
(`models.py` lines 266-268): `max(0, stock_quantity - reserved_quantity)`. -/
def available_to_promise (inv : Inventory) : Int :=
  max 0 (inv.stock_quantity - inv.reserved_quantity)

/-- The `available_to_promise` queryset annotation of
`InventoryViewSet.get_queryset` (`views.py` lines 230-236):
`F(stock_quantity) - F(reserved_quantity)`, with no clamping. -/
def annotated_available_to_promise (inv : Inventory) : Int :=
  inv.stock_quantity - inv.reserved_quantity

/-- C9 counterexample: on a record with stock 0 and reserved 5, the
queryset annotation — one of the two derivations the claim covers —
yields -5, which differs from `max(0, stock - reserved) = 0` and is
negative, refuting "the derived availableToPromise value ... is never
negative". -/
theorem annotated_atp_negative_counterexample :
    annotated_available_to_promise invReserved5 = -5 ∧
    annotated_available_to_promise invReserved5 ≠
      max 0 (invReserved5.stock_quantity - invReserved5.reserved_quantity) ∧
    annotated_available_to_promise invReserved5 < 0 := by
  refine ⟨rfl, by decide, by decide⟩

/-- C9 (amended): the model property `available_to_promise` equals
`max(0, stock - reserved)` and is never negative, and it agrees with the
unclamped queryset annotation exactly when reserved does not exceed
stock; the annotation itself is `stock - reserved` and can go
negative. -/
theorem available_to_promise_clamped (inv : Inventory) :
    0 ≤ available_to_promise inv ∧
    available_to_promise inv = max 0 (annotated_available_to_promise inv) ∧
    (inv.reserved_quantity ≤ inv.stock_quantity →
      available_to_promise inv = annotated_available_to_promise inv) := by
  unfold available_to_promise annotated_available_to_promise
  refine ⟨le_max_left _ _, rfl, fun h => max_eq_right (by omega)⟩

/-- Witness for C9's amended statement at a concrete record. -/
theorem available_to_promise_clamped_witness :
    available_to_promise invStock20 = annotated_available_to_promise invStock20 :=
  (available_to_promise_clamped invStock20).2.2 (by decide)

/-- Lot statuses: the five of `models.py` `LotStatus` plus the `CONSUMED`
and `PARTIALLY_RESERVED` values that the repository's lot tests
(`tests/test_lot_services.py`) expect the missing service layer to use.
`CONSUMED` is the terminal marker of §4.2 of the spec. -/
inductive LotStatus where
  | AVAILABLE
  | RESERVED
  | PARTIALLY_RESERVED
  | CONSUMED
  | EXPIRED
  | QUARANTINE
  | DAMAGED
deriving Repr, DecidableEq

/-- One row of the `Lot` model (`models.py`, class `Lot`), restricted to
the fields the sub-ledger logic reads: dates are modelled as integer day
ordinals, `expiry_date` optional as in the source. The `reserved_quantity`
counter is the per-lot reserved pool the tests expect
(`lot.reserved_quantity` in `test_reserve_and_release_lot_quantity`). -/
structure Lot where
  lot_number : String
  quantity : Int
  reserved_quantity : Int
  status : LotStatus
  expiry_date : Option Int
  received_date : Int
deriving Repr, DecidableEq

/-- The persisted state a lot operation touches: the owning
`InventoryRecord` and the lots that reference it. -/
structure LotState where
  inventory : Inventory
  lots : List Lot
deriving Repr, DecidableEq

/-- An expiry date already in the past, relative to the given day. -/
def expiry_passed : Option Int → Int → Bool
  | none, _ => false
  | some d, today => decide (d < today)

/-- Increment the first (lot_number, AVAILABLE) row, or create one at the
end of the list; a freshly created row gets status AVAILABLE, or EXPIRED
when its expiry date has already passed. -/
def add_to_lot_list : List Lot → String → Int → Option Int → Int → List Lot
  | [], n, q, e, today =>
      [{ lot_number := n, quantity := q, reserved_quantity := 0,
         status := if expiry_passed e today then LotStatus.EXPIRED
                   else LotStatus.AVAILABLE,
         expiry_date := e, received_date := today }]
  | l :: ls, n, q, e, today =>
      if l.lot_number = n ∧ l.status = LotStatus.AVAILABLE then
        { l with quantity := l.quantity + q } :: ls
      else
        l :: add_to_lot_list ls n q e today

/-- Modelled from the spec: `add_quantity_to_lot` (§4.2 addQuantity) is
imported by `views.py` and the tests but missing from the source tree.
qty > 0 is required; an existing (lotNumber, AVAILABLE) row is
incremented, otherwise a row is created with status AVAILABLE (or
EXPIRED when the expiry date has already passed), and the owning
record's `stock_quantity` rises by qty. -/
def add_quantity_to_lot (s : LotState) (lot_number : String) (qty : Int)
    (expiry_date : Option Int) (today : Int) : Except String LotState :=
  if qty ≤ 0 then
    Except.error "Quantity to add must be positive."
  else
    Except.ok
      { inventory := { s.inventory with
          stock_quantity := s.inventory.stock_quantity + qty },
        lots := add_to_lot_list s.lots lot_number qty expiry_date today }

/-- Decrement the first (lot_number, AVAILABLE) row by q, marking it
CONSUMED when it reaches zero; `none` when no such row exists or the
preconditions (0 < q ≤ quantity) fail. -/
def consume_in_lot_list : List Lot → String → Int → Option (List Lot)
  | [], _, _ => none
  | l :: ls, n, q =>
      if l.lot_number = n ∧ l.status = LotStatus.AVAILABLE then
        if 0 < q ∧ q ≤ l.quantity then
          let st := if l.quantity - q = 0 then LotStatus.CONSUMED
                    else LotStatus.AVAILABLE
          some ({ l with quantity := l.quantity - q, status := st } :: ls)
        else none
      else
        match consume_in_lot_list ls n q with
        | some ls2 => some (l :: ls2)
        | none => none

/-- Modelled from the spec: `consume_quantity_from_lot` (§4.2 consume) is
imported by `views.py` and the tests but missing from the source tree.
Requires 0 < qty ≤ lot.quantity and status AVAILABLE (consuming from an
EXPIRED or DAMAGED lot fails); decrements the lot quantity and the
owning record's `stock_quantity` together; a lot drained to zero becomes
CONSUMED, the terminal marker. -/
def consume_quantity_from_lot (s : LotState) (lot_number : String)
    (qty : Int) : Except String LotState :=
  match consume_in_lot_list s.lots lot_number qty with
  | none => Except.error "Cannot consume the requested quantity from this lot."
  | some ls =>
      Except.ok
        { inventory := { s.inventory with
            stock_quantity := s.inventory.stock_quantity - qty },
          lots := ls }

/-- Move q units of the first matching AVAILABLE or PARTIALLY_RESERVED
row from its quantity to its reserved counter; fully reserved rows
become RESERVED, partially reserved ones PARTIALLY_RESERVED. -/
def reserve_in_lot_list : List Lot → String → Int → Option (List Lot)
  | [], _, _ => none
  | l :: ls, n, q =>
      if l.lot_number = n ∧
          (l.status = LotStatus.AVAILABLE ∨
            l.status = LotStatus.PARTIALLY_RESERVED) then
        if 0 < q ∧ q ≤ l.quantity then
          let st := if l.quantity - q = 0 then LotStatus.RESERVED
                    else LotStatus.PARTIALLY_RESERVED
          some ({ l with
            quantity := l.quantity - q,
            reserved_quantity := l.reserved_quantity + q,
            status := st } :: ls)
        else none
      else
        match reserve_in_lot_list ls n q with
        | some ls2 => some (l :: ls2)
        | none => none

/-- Modelled from the spec: `reserve_lot_quantity` (§4.2 reserve) is
imported by `views.py` and the tests but missing from the source tree.
Moves qty from the lot's quantity to its reserved counter and performs
the ledger bucket move the tests expect: `stock_quantity` falls and
`reserved_quantity` rises on the owning record. -/
def reserve_lot_quantity (s : LotState) (lot_number : String) (qty : Int) :
    Except String LotState :=
  match reserve_in_lot_list s.lots lot_number qty with
  | none => Except.error "Cannot reserve the requested quantity from this lot."
  | some ls =>
      Except.ok
        { inventory := { s.inventory with
            stock_quantity := s.inventory.stock_quantity - qty,
            reserved_quantity := s.inventory.reserved_quantity + qty },
          lots := ls }

/-- Move q units of the first matching RESERVED or PARTIALLY_RESERVED
row back from its reserved counter to its quantity. -/
def release_in_lot_list : List Lot → String → Int → Option (List Lot)
  | [], _, _ => none
  | l :: ls, n, q =>
      if l.lot_number = n ∧
          (l.status = LotStatus.RESERVED ∨
            l.status = LotStatus.PARTIALLY_RESERVED) then
        if 0 < q ∧ q ≤ l.reserved_quantity then
          let st := if l.reserved_quantity - q = 0 then LotStatus.AVAILABLE
                    else LotStatus.PARTIALLY_RESERVED
          some ({ l with
            quantity := l.quantity + q,
            reserved_quantity := l.reserved_quantity - q,
            status := st } :: ls)
        else none
      else
        match release_in_lot_list ls n q with
        | some ls2 => some (l :: ls2)
        | none => none

/-- Modelled from the spec: `release_lot_reservation` (§4.2 release, the
inverse of reserve) is imported by `views.py` and the tests but missing
from the source tree. -/
def release_lot_reservation (s : LotState) (lot_number : String)
    (qty : Int) : Except String LotState :=
  match release_in_lot_list s.lots lot_number qty with
  | none => Except.error "Cannot release the requested reserved quantity."
  | some ls =>
      Except.ok
        { inventory := { s.inventory with
            stock_quantity := s.inventory.stock_quantity + qty,
            reserved_quantity := s.inventory.reserved_quantity - qty },
          lots := ls }

/-- Lexicographic comparison of sort keys. -/
def key_le (a b : Int × Int) : Bool :=
  decide (a.1 < b.1 ∨ (a.1 = b.1 ∧ a.2 ≤ b.2))

/-- FEFO key: ascending expiry date, entries with no expiry last. -/
def fefo_key (l : Lot) : Int × Int :=
  match l.expiry_date with
  | some d => (0, d)
  | none => (1, 0)

/-- FIFO key: ascending received date. -/
def fifo_key (l : Lot) : Int × Int :=
  (0, l.received_date)

/-- Stable insertion into a key-sorted list: an element goes before the
first entry with a key not smaller than its own. -/
def insert_by_key (key : Lot → Int × Int) (x : Lot) : List Lot → List Lot
  | [] => [x]
  | y :: ys =>
      if key_le (key x) (key y) then x :: y :: ys
      else y :: insert_by_key key x ys

/-- Stable insertion sort by a key. -/
def sort_by_key (key : Lot → Int × Int) : List Lot → List Lot
  | [] => []
  | x :: xs => insert_by_key key x (sort_by_key key xs)

/-- An entry the Allocation Selector may draw from: status AVAILABLE and
strictly positive quantity. -/
def eligible_lot (l : Lot) : Bool :=
  decide (l.status = LotStatus.AVAILABLE ∧ 0 < l.quantity)

/-- Walk the sorted pool accumulating min(entry.quantity, remaining) per
entry until nothing remains or the pool is exhausted. -/
def greedy_allocate : List Lot → Int → List (Lot × Int)
  | [], _ => []
  | l :: ls, remaining =>
      if remaining ≤ 0 then []
      else (l, min l.quantity remaining) ::
        greedy_allocate ls (remaining - min l.quantity remaining)

/-- Modelled from the spec: `find_lots_for_consumption` (§4.4 Allocation
Selector) is imported by `views.py` and the tests but missing from the
source tree. Filters to eligible entries (AVAILABLE, quantity > 0),
sorts by the ordering policy — FEFO: ascending expiry with null expiry
last; FIFO: ascending received date — and greedily allocates, mutating
nothing and returning a partial allocation when the pool is
exhausted. -/
def find_lots_for_consumption (lots : List Lot) (quantity_needed : Int)
    (strategy : String) : List (Lot × Int) :=
  let pool := lots.filter eligible_lot
  let sorted :=
    if strategy = "FIFO" then sort_by_key fifo_key pool
    else sort_by_key fefo_key pool
  greedy_allocate sorted quantity_needed

/-- Apply an allocation by consuming each selected (lot, amount) in
order, stopping at the first failure with earlier consumptions kept, as
the `consume_lot` view's loop does. -/
def consume_allocation (s : LotState) : List (Lot × Int) → LotState
  | [] => s
  | (l, q) :: rest =>
      match consume_quantity_from_lot s l.lot_number q with
      | Except.ok s2 => consume_allocation s2 rest
      | Except.error _ => s

/-- The exposed lot operations the conservation claim quantifies over:
adding quantity to a lot, consuming from a named lot, consuming by
strategy through the Allocation Selector, and reserving and releasing
lot quantity. -/
inductive LotOp where
  | add (lot_number : String) (qty : Int) (expiry_date : Option Int) (today : Int)
  | consume (lot_number : String) (qty : Int)
  | consume_strategy (qty : Int) (strategy : String)
  | reserve (lot_number : String) (qty : Int)
  | release (lot_number : String) (qty : Int)

/-- Persisted outcome of one lot operation: an operation that raises
rolls back and leaves the state unchanged. -/
def run_lot_op (s : LotState) : LotOp → LotState
  | LotOp.add n q e today =>
      match add_quantity_to_lot s n q e today with
      | Except.ok s2 => s2
      | Except.error _ => s
  | LotOp.consume n q =>
      match consume_quantity_from_lot s n q with
      | Except.ok s2 => s2
      | Except.error _ => s
  | LotOp.consume_strategy q strat =>
      consume_allocation s (find_lots_for_consumption s.lots q strat)
  | LotOp.reserve n q =>
      match reserve_lot_quantity s n q with
      | Except.ok s2 => s2
      | Except.error _ => s
  | LotOp.release n q =>
      match release_lot_reservation s n q with
      | Except.ok s2 => s2
      | Except.error _ => s

/-- Persisted state after a sequence of lot operations. -/
def run_lot_ops (s : LotState) : List LotOp → LotState
  | [] => s
  | op :: ops => run_lot_ops (run_lot_op s op) ops

/-- Sum of `quantity` over the non-terminal lots (every status except
the CONSUMED marker). -/
def lot_total : List Lot → Int
  | [] => 0
  | l :: ls =>
      (if l.status = LotStatus.CONSUMED then 0 else l.quantity) + lot_total ls

/-- The cross-entity conservation invariant: the owning record's
`stock_quantity` equals the sum of quantity over its non-terminal
lots. -/
def conservation (s : LotState) : Prop :=
  s.inventory.stock_quantity = lot_total s.lots

instance (s : LotState) : Decidable (conservation s) := by
  unfold conservation
  infer_instance

theorem lot_total_add_to_lot_list (ls : List Lot) (n : String) (q : Int)
    (e : Option Int) (today : Int) :
    lot_total (add_to_lot_list ls n q e today) = lot_total ls + q := by
  induction ls with
  | nil =>
      unfold add_to_lot_list
      cases h : expiry_passed e today <;> simp [lot_total, h]
  | cons l ls ih =>
      unfold add_to_lot_list
      split_ifs with hm
      · simp only [lot_total, hm.2]
        simp
        omega
      · simp only [lot_total, ih]
        split_ifs <;> ring

theorem lot_total_consume_in_lot_list {ls ls2 : List Lot} {n : String}
    {q : Int} (h : consume_in_lot_list ls n q = some ls2) :
    lot_total ls2 = lot_total ls - q := by
  induction ls generalizing ls2 with
  | nil => simp [consume_in_lot_list] at h
  | cons l ls ih =>
      unfold consume_in_lot_list at h
      split_ifs at h with hm hq h0
      · simp at h
        subst h
        simp [lot_total, hm.2]
        omega
      · simp at h
        subst h
        simp [lot_total, hm.2]
        omega
      · cases hr : consume_in_lot_list ls n q with
        | none => rw [hr] at h; simp at h
        | some ls3 =>
            rw [hr] at h
            simp at h
            subst h
            simp only [lot_total]
            rw [ih hr]
            ring

theorem lot_total_reserve_in_lot_list {ls ls2 : List Lot} {n : String}
    {q : Int} (h : reserve_in_lot_list ls n q = some ls2) :
    lot_total ls2 = lot_total ls - q := by
  induction ls generalizing ls2 with
  | nil => simp [reserve_in_lot_list] at h
  | cons l ls ih =>
      unfold reserve_in_lot_list at h
      split_ifs at h with hm hq h0
      · simp at h
        subst h
        have hs : l.status ≠ LotStatus.CONSUMED := by
          rcases hm.2 with h2 | h2 <;> simp [h2]
        simp [lot_total, hs]
        omega
      · simp at h
        subst h
        have hs : l.status ≠ LotStatus.CONSUMED := by
          rcases hm.2 with h2 | h2 <;> simp [h2]
        simp [lot_total, hs]
        omega
      · cases hr : reserve_in_lot_list ls n q with
        | none => rw [hr] at h; simp at h
        | some ls3 =>
            rw [hr] at h
            simp at h
            subst h
            simp only [lot_total]
            rw [ih hr]
            ring

theorem lot_total_release_in_lot_list {ls ls2 : List Lot} {n : String}
    {q : Int} (h : release_in_lot_list ls n q = some ls2) :
    lot_total ls2 = lot_total ls + q := by
  induction ls generalizing ls2 with
  | nil => simp [release_in_lot_list] at h
  | cons l ls ih =>
      unfold release_in_lot_list at h
      split_ifs at h with hm hq h0
      · simp at h
        subst h
        have hs : l.status ≠ LotStatus.CONSUMED := by
          rcases hm.2 with h2 | h2 <;> simp [h2]
        simp [lot_total, hs]
        omega
      · simp at h
        subst h
        have hs : l.status ≠ LotStatus.CONSUMED := by
          rcases hm.2 with h2 | h2 <;> simp [h2]
        simp [lot_total, hs]
        omega
      · cases hr : release_in_lot_list ls n q with
        | none => rw [hr] at h; simp at h
        | some ls3 =>
            rw [hr] at h
            simp at h
            subst h
            simp only [lot_total]
            rw [ih hr]
            ring

theorem conservation_add_ok {s s2 : LotState} {n : String} {q : Int}
    {e : Option Int} {today : Int} (h : conservation s)
    (hr : add_quantity_to_lot s n q e today = Except.ok s2) :
    conservation s2 := by
  unfold add_quantity_to_lot at hr
  split_ifs at hr
  simp only [Except.ok.injEq] at hr
  subst hr
  unfold conservation at h ⊢
  dsimp only
  rw [lot_total_add_to_lot_list]
  omega

theorem conservation_consume_ok {s s2 : LotState} {n : String} {q : Int}
    (h : conservation s)
    (hr : consume_quantity_from_lot s n q = Except.ok s2) :
    conservation s2 := by
  unfold consume_quantity_from_lot at hr
  cases hc : consume_in_lot_list s.lots n q with
  | none => rw [hc] at hr; simp at hr
  | some ls2 =>
      rw [hc] at hr
      simp only [Except.ok.injEq] at hr
      subst hr
      unfold conservation at h ⊢
      dsimp only
      rw [lot_total_consume_in_lot_list hc]
      omega

theorem conservation_reserve_ok {s s2 : LotState} {n : String} {q : Int}
    (h : conservation s)
    (hr : reserve_lot_quantity s n q = Except.ok s2) :
    conservation s2 := by
  unfold reserve_lot_quantity at hr
  cases hc : reserve_in_lot_list s.lots n q with
  | none => rw [hc] at hr; simp at hr
  | some ls2 =>
      rw [hc] at hr
      simp only [Except.ok.injEq] at hr
      subst hr
      unfold conservation at h ⊢
      dsimp only
      rw [lot_total_reserve_in_lot_list hc]
      omega

theorem conservation_release_ok {s s2 : LotState} {n : String} {q : Int}
    (h : conservation s)
    (hr : release_lot_reservation s n q = Except.ok s2) :
    conservation s2 := by
  unfold release_lot_reservation at hr
  cases hc : release_in_lot_list s.lots n q with
  | none => rw [hc] at hr; simp at hr
  | some ls2 =>
      rw [hc] at hr
      simp only [Except.ok.injEq] at hr
      subst hr
      unfold conservation at h ⊢
      dsimp only
      rw [lot_total_release_in_lot_list hc]
      omega

theorem conservation_consume_allocation (s : LotState)
    (alloc : List (Lot × Int)) (h : conservation s) :
    conservation (consume_allocation s alloc) := by
  induction alloc generalizing s with
  | nil => exact h
  | cons p rest ih =>
      obtain ⟨l, q⟩ := p
      unfold consume_allocation
      cases hr : consume_quantity_from_lot s l.lot_number q with
      | error e => exact h
      | ok s2 => exact ih s2 (conservation_consume_ok h hr)

theorem conservation_run_lot_op (s : LotState) (op : LotOp)
    (h : conservation s) : conservation (run_lot_op s op) := by
  cases op with
  | add n q e today =>
      simp only [run_lot_op]
      cases hr : add_quantity_to_lot s n q e today with
      | error e2 => exact h
      | ok s2 => exact conservation_add_ok h hr
  | consume n q =>
      simp only [run_lot_op]
      cases hr : consume_quantity_from_lot s n q with
      | error e2 => exact h
      | ok s2 => exact conservation_consume_ok h hr
  | consume_strategy q strat =>
      simp only [run_lot_op]
      exact conservation_consume_allocation s _ h
  | reserve n q =>
      simp only [run_lot_op]
      cases hr : reserve_lot_quantity s n q with
      | error e2 => exact h
      | ok s2 => exact conservation_reserve_ok h hr
  | release n q =>
      simp only [run_lot_op]
      cases hr : release_lot_reservation s n q with
      | error e2 => exact h
      | ok s2 => exact conservation_release_ok h hr

/-- C4: starting from a state satisfying the conservation invariant — in
particular the empty state a lot-tracked product starts from — every
sequence of the exposed lot operations (adding quantity to a lot,
consuming from a named lot or by strategy, reserving and releasing lot
quantity) preserves it: the owning record's `stock_quantity` equals the
sum of `quantity` over the non-terminal lots after every operation. -/
theorem run_lot_ops_preserves_conservation (s : LotState) (ops : List LotOp)
    (h : conservation s) : conservation (run_lot_ops s ops) := by
  induction ops generalizing s with
  | nil => exact h
  | cons op ops ih => exact ih _ (conservation_run_lot_op s op h)

/-- The empty lot-ledger state. -/
def lotState0 : LotState :=
  { inventory := ⟨0, 0, 0, 0, 0, 0, 0, 0⟩, lots := [] }

/-- A concrete run over every exposed lot operation. -/
def lotOpsDemo : List LotOp :=
  [LotOp.add "L1" 10 (some 30) 0, LotOp.consume "L1" 3,
   LotOp.reserve "L1" 4, LotOp.release "L1" 2,
   LotOp.consume_strategy 5 "FEFO"]

/-- Witness for C4 at the empty state and a concrete operation
sequence. -/
theorem run_lot_ops_preserves_conservation_witness :
    conservation lotState0 ∧ conservation (run_lot_ops lotState0 lotOpsDemo) :=
  ⟨by decide, run_lot_ops_preserves_conservation lotState0 lotOpsDemo (by decide)⟩

theorem mem_insert_by_key {key : Lot → Int × Int} {x y : Lot}
    {ls : List Lot} : y ∈ insert_by_key key x ls ↔ y = x ∨ y ∈ ls := by
  induction ls with
  | nil => simp [insert_by_key]
  | cons z zs ih =>
      unfold insert_by_key
      split_ifs <;> simp [ih] <;> tauto

theorem mem_sort_by_key {key : Lot → Int × Int} {y : Lot} {ls : List Lot} :
    y ∈ sort_by_key key ls ↔ y ∈ ls := by
  induction ls with
  | nil => simp [sort_by_key]
  | cons z zs ih => simp [sort_by_key, mem_insert_by_key, ih]

theorem greedy_allocate_mem {ls : List Lot} {r : Int} {p : Lot × Int}
    (hpos : ∀ l ∈ ls, 0 < l.quantity) (hp : p ∈ greedy_allocate ls r) :
    p.1 ∈ ls ∧ 0 < p.2 ∧ p.2 ≤ p.1.quantity := by
  induction ls generalizing r with
  | nil => simp [greedy_allocate] at hp
  | cons l ls ih =>
      unfold greedy_allocate at hp
      split_ifs at hp with h0
      · simp at hp
      · rcases List.mem_cons.mp hp with h | h
        · have hl := hpos l (List.mem_cons_self l ls)
          subst h
          refine ⟨List.mem_cons_self _ _, ?_, ?_⟩ <;> dsimp only <;> omega
        · have h2 := ih (fun l2 hm => hpos l2 (List.mem_cons_of_mem _ hm)) h
          exact ⟨List.mem_cons_of_mem _ h2.1, h2.2⟩

theorem find_lots_sound {lots : List Lot} {needed : Int} {strategy : String}
    {p : Lot × Int} (hp : p ∈ find_lots_for_consumption lots needed strategy) :
    p.1 ∈ lots ∧ p.1.status = LotStatus.AVAILABLE ∧ 0 < p.1.quantity ∧
      0 < p.2 ∧ p.2 ≤ p.1.quantity := by
  simp only [find_lots_for_consumption] at hp
  have hfilter : ∀ l, l ∈ (if strategy = "FIFO" then
        sort_by_key fifo_key (lots.filter eligible_lot)
      else sort_by_key fefo_key (lots.filter eligible_lot)) →
      l ∈ lots ∧ l.status = LotStatus.AVAILABLE ∧ 0 < l.quantity := by
    intro l hl
    have hl2 : l ∈ lots.filter eligible_lot := by
      split_ifs at hl <;> exact mem_sort_by_key.mp hl
    have h3 := List.mem_filter.mp hl2
    refine ⟨h3.1, ?_⟩
    have he := h3.2
    simpa [eligible_lot] using he
  obtain ⟨h1, h2, h3⟩ :=
    greedy_allocate_mem (fun l hl => (hfilter l hl).2.2) hp
  have h4 := hfilter p.1 h1
  exact ⟨h4.1, h4.2.1, h4.2.2, h2, h3⟩

/-- The FEFO example lots of the claim: quantities 10, 15 and 5,
expiring in 30, 7 and 1 days. -/
def lotExp30 : Lot :=
  { lot_number := "LOTA", quantity := 10, reserved_quantity := 0,
    status := LotStatus.AVAILABLE, expiry_date := some 30, received_date := 0 }

/-- The 15-unit lot expiring in 7 days. -/
def lotExp7 : Lot :=
  { lot_number := "LOTB", quantity := 15, reserved_quantity := 0,
    status := LotStatus.AVAILABLE, expiry_date := some 7, received_date := 0 }

/-- The 5-unit lot expiring tomorrow. -/
def lotExp1 : Lot :=
  { lot_number := "LOTC", quantity := 5, reserved_quantity := 0,
    status := LotStatus.AVAILABLE, expiry_date := some 1, received_date := 0 }

/-- C8: `find_lots_for_consumption` considers only lots with status
AVAILABLE and positive quantity, allocates per lot a positive amount of
at most the lot's quantity without mutating anything (it is a pure
function over the lot list), and on the claim's concrete pool — lots of
10, 15 and 5 units expiring in 30, 7 and 1 days, 20 needed, FEFO —
returns the 1-day lot with 5 and then the 7-day lot with 15, in that
order. -/
theorem fefo_allocation_selector :
    (∀ (lots : List Lot) (needed : Int) (strategy : String) (p : Lot × Int),
        p ∈ find_lots_for_consumption lots needed strategy →
          p.1 ∈ lots ∧ p.1.status = LotStatus.AVAILABLE ∧ 0 < p.1.quantity ∧
          0 < p.2 ∧ p.2 ≤ p.1.quantity) ∧
    find_lots_for_consumption [lotExp30, lotExp7, lotExp1] 20 "FEFO" =
      [(lotExp1, 5), (lotExp7, 15)] := by
  constructor
  · intro lots needed strategy p hp
    exact find_lots_sound hp
  · rfl

/-- Witness for C8: the theorem's soundness half applied to the first
pair of the concrete FEFO allocation. -/
theorem fefo_allocation_selector_witness :
    (lotExp1, (5 : Int)).1 ∈ [lotExp30, lotExp7, lotExp1] ∧
    (lotExp1, (5 : Int)).1.status = LotStatus.AVAILABLE ∧
    0 < (lotExp1, (5 : Int)).1.quantity ∧
    0 < (lotExp1, (5 : Int)).2 ∧
    (lotExp1, (5 : Int)).2 ≤ (lotExp1, (5 : Int)).1.quantity :=
  fefo_allocation_selector.1 [lotExp30, lotExp7, lotExp1] 20 "FEFO"
    (lotExp1, 5) (by decide)

/-- One row of the `SerializedInventory` model (`models.py`, class
`SerializedInventory`), restricted to the fields the uniqueness claim
reads; products are identified by their ids, statuses by the
`SerialNumberStatus` string values. The model's Meta declares
`unique_together = (product, serial_number, org_id)`. -/
structure SerializedInventory where
  product : Nat
  serial_number : String
  status : String
  notes : Option String
deriving Repr, DecidableEq

/-- The persisted state a serialized receipt touches: the units and the
owning `InventoryRecord`. -/
structure SerialState where
  units : List SerializedInventory
  inventory : Inventory
deriving Repr, DecidableEq

/-- A unit with this product and serial number. -/
def serial_matches (product : Nat) (serial_number : String)
    (u : SerializedInventory) : Bool :=
  u.product == product && u.serial_number == serial_number

/-- Modelled from the spec: `receive_serialized_item` (§4.3 receive) is
imported by the tests but missing from the source tree. Fails with
`DuplicateSerialNumber` when a unit with this (product, serial) already
exists — the uniqueness the model's `unique_together` constraint
declares — otherwise creates an AVAILABLE unit and increments the owning
record's `stock_quantity` by one. -/
def receive_serialized_item (s : SerialState) (product : Nat)
    (serial_number : String) (notes : Option String) :
    Except String SerialState :=
  if s.units.any (serial_matches product serial_number) then
    Except.error "DuplicateSerialNumber"
  else
    Except.ok
      { units := s.units ++
          [{ product := product, serial_number := serial_number,
             status := "AVAILABLE", notes := notes }],
        inventory := { s.inventory with
          stock_quantity := s.inventory.stock_quantity + 1 } }

/-- Persisted outcome of one receipt: a raised error rolls back, leaving
the state unchanged. -/
def run_receive (s : SerialState) (product : Nat) (serial_number : String)
    (notes : Option String) : SerialState :=
  match receive_serialized_item s product serial_number notes with
  | Except.ok s2 => s2
  | Except.error _ => s

/-- How many units carry this (product, serial_number) pair. -/
def serial_count (s : SerialState) (product : Nat)
    (serial_number : String) : Nat :=
  (s.units.filter (serial_matches product serial_number)).length

/-- C10: receiving a serial number a product does not hold yet succeeds,
after which exactly one unit with that serial exists; receiving the same
serial for the same product a second time fails with
`DuplicateSerialNumber`, leaves the persisted state — in particular the
first unit — unchanged, and exactly one unit with that serial exists
afterward. -/
theorem duplicate_serial_number_rejected (s : SerialState) (p : Nat)
    (sn : String) (n1 n2 : Option String)
    (h : serial_count s p sn = 0) :
    (∃ s1, receive_serialized_item s p sn n1 = Except.ok s1) ∧
    serial_count (run_receive s p sn n1) p sn = 1 ∧
    receive_serialized_item (run_receive s p sn n1) p sn n2 =
      Except.error "DuplicateSerialNumber" ∧
    run_receive (run_receive s p sn n1) p sn n2 = run_receive s p sn n1 := by
  have hempty : s.units.filter (serial_matches p sn) = [] :=
    List.length_eq_zero.mp h
  have hany : s.units.any (serial_matches p sn) = false := by
    rw [List.any_eq_false]
    intro u hu
    exact List.filter_eq_nil_iff.mp hempty u hu
  have hself : serial_matches p sn
      { product := p, serial_number := sn, status := "AVAILABLE",
        notes := n1 } = true := by
    simp [serial_matches]
  have h1 : receive_serialized_item s p sn n1 = Except.ok
      { units := s.units ++
          [{ product := p, serial_number := sn, status := "AVAILABLE",
             notes := n1 }],
        inventory := { s.inventory with
          stock_quantity := s.inventory.stock_quantity + 1 } } := by
    unfold receive_serialized_item
    rw [if_neg (by simp [hany])]
  have hrun : run_receive s p sn n1 =
      { units := s.units ++
          [{ product := p, serial_number := sn, status := "AVAILABLE",
             notes := n1 }],
        inventory := { s.inventory with
          stock_quantity := s.inventory.stock_quantity + 1 } } := by
    unfold run_receive
    rw [h1]
  have h2 : receive_serialized_item (run_receive s p sn n1) p sn n2 =
      Except.error "DuplicateSerialNumber" := by
    rw [hrun]
    unfold receive_serialized_item
    rw [if_pos (by simp [List.any_append, hany, hself])]
  refine ⟨⟨_, h1⟩, ?_, h2, ?_⟩
  · rw [hrun]
    simp [serial_count, List.filter_append, hempty, hself]
  · have hu : run_receive (run_receive s p sn n1) p sn n2 =
        match receive_serialized_item (run_receive s p sn n1) p sn n2 with
        | Except.ok s2 => s2
        | Except.error _ => run_receive s p sn n1 := rfl
    rw [hu, h2]

/-- The empty serialized state. -/
def serialState0 : SerialState :=
  { units := [], inventory := ⟨0, 0, 0, 0, 0, 0, 0, 0⟩ }

/-- Witness for C10 at a concrete product and serial number. -/
theorem duplicate_serial_number_rejected_witness :
    (∃ s1, receive_serialized_item serialState0 7 "SN1" none =
      Except.ok s1) ∧
    serial_count (run_receive serialState0 7 "SN1" none) 7 "SN1" = 1 ∧
    receive_serialized_item (run_receive serialState0 7 "SN1" none) 7 "SN1"
        none = Except.error "DuplicateSerialNumber" ∧
    run_receive (run_receive serialState0 7 "SN1" none) 7 "SN1" none =
      run_receive serialState0 7 "SN1" none :=
  duplicate_serial_number_rejected serialState0 7 "SN1" none none (by decide)

end TurtleInventory
